import Mathlib

/-!
Verification of the layout-remapping engine of PSD-Procedural-Logic-Engine-v24.

The repository ships two implementations of the same engine:
* `src/unnamed/part_000`, component `RemapperInstanceRow` (per-layer override
  resolution, cover base scale, a collision sweep);
* `src/components/RemapperNode.tsx`, component `RemapperInstance` (wholesale
  override-list resolution, contain base scale, a grid/distribution solver).

JS numbers are modelled by `ℚ` on the non-degenerate paths (every arithmetic
operation the engine performs on finite inputs with non-zero divisors is exact
rational arithmetic); the degenerate division-by-zero path is modelled
separately by `JSNum`, a rational extended with IEEE-754 infinities and NaN,
because `ℚ` division is total with `q / 0 = 0` while JavaScript produces
non-finite numbers there.  JS truthiness tests on numbers (`0` is falsy) and on
optional fields (`undefined` is falsy, an array — even empty — is truthy) are
modelled explicitly where the source relies on them.
-/

namespace PSD

/-- Axis-aligned rectangle `{x, y, w, h}` (spec §3, `bounds`/`coords` shape). -/
structure Rect where
  x : ℚ
  y : ℚ
  w : ℚ
  h : ℚ
deriving DecidableEq, Repr

/-- The resolved `transform` record carried on a transformed layer:
`{scaleX, scaleY, offsetX, offsetY, rotation}`. -/
structure LayerTransform where
  scaleX : ℚ
  scaleY : ℚ
  offsetX : ℚ
  offsetY : ℚ
  rotation : ℚ
deriving DecidableEq, Repr

/-- Modelled from the spec: `src/types.ts` is not under `src/`; this is the
`LayerOverride` shape of spec §3 together with the fields both engines read.
`xOffset`/`yOffset` are added unconditionally as numbers by both engines, so
they are modelled as required fields; the remaining optional fields are
`Option`s (`none` = JS `undefined`). -/
structure LayerOverride where
  layerId : String
  xOffset : ℚ
  yOffset : ℚ
  individualScale : Option ℚ
  rotation : Option ℚ
  layoutRole : Option String
  linkedAnchorId : Option String
  citedRule : Option String
deriving DecidableEq, Repr

/-- Modelled from the spec: the `physicsRules` object of Strategy (spec §3). -/
structure PhysicsRules where
  preventOverlap : Bool
deriving DecidableEq, Repr

/-- Modelled from the spec: `src/types.ts` is not under `src/`; the
`LayoutStrategy` shape of spec §3 plus `isExplicitIntent`, which
`RemapperNode.tsx` reads for the payload's `isConfirmed`.  Enumeration-valued
fields (`method`, `layoutMode`) are strings, compared exactly as the engines
compare them. -/
structure LayoutStrategy where
  method : String
  suggestedScale : Option ℚ
  layoutMode : Option String
  overrides : Option (List LayerOverride)
  replaceLayerId : Option String
  generativePrompt : Option String
  physicsRules : Option PhysicsRules
  isExplicitIntent : Option Bool
  sourceReference : Option String
  triangulation : Option String
  timestamp : Option ℚ
deriving DecidableEq, Repr

/-- Modelled from the spec: the `FeedbackStrategy` shape of spec §3 — the same
override sequence shape as Strategy's plus `isCommitted`. -/
structure FeedbackStrategy where
  overrides : Option (List LayerOverride)
  isCommitted : Bool
deriving DecidableEq, Repr

/-- A source layer (`SerializableLayer`): identity, semantic type, coords in
source-container space, optional `layoutRole`, provenance metadata and
children.  Absent `children` are modelled as the empty list (no claim
distinguishes a missing child array from an empty one). -/
inductive SLayer : Type where
  | mk (id : String) (type : String) (coords : Rect) (layoutRole : Option String)
      (linkedAnchorId : Option String) (citedRule : Option String)
      (children : List SLayer) : SLayer

def SLayer.id : SLayer → String
  | .mk i _ _ _ _ _ _ => i

def SLayer.type : SLayer → String
  | .mk _ t _ _ _ _ _ => t

def SLayer.coords : SLayer → Rect
  | .mk _ _ c _ _ _ _ => c

def SLayer.layoutRole : SLayer → Option String
  | .mk _ _ _ r _ _ _ => r

def SLayer.linkedAnchorId : SLayer → Option String
  | .mk _ _ _ _ a _ _ => a

def SLayer.citedRule : SLayer → Option String
  | .mk _ _ _ _ _ r _ => r

def SLayer.children : SLayer → List SLayer
  | .mk _ _ _ _ _ _ c => c

/-- A transformed layer (`TransformedLayer`): the layer plus resolved
`transform` and final `coords` in target space; children mirror the input
tree. -/
inductive TLayer : Type where
  | mk (id : String) (type : String) (coords : Rect) (transform : LayerTransform)
      (layoutRole : Option String) (linkedAnchorId : Option String)
      (citedRule : Option String) (generativePrompt : Option String)
      (children : List TLayer) : TLayer

def TLayer.id : TLayer → String
  | .mk i _ _ _ _ _ _ _ _ => i

def TLayer.type : TLayer → String
  | .mk _ t _ _ _ _ _ _ _ => t

def TLayer.coords : TLayer → Rect
  | .mk _ _ c _ _ _ _ _ _ => c

def TLayer.transform : TLayer → LayerTransform
  | .mk _ _ _ t _ _ _ _ _ => t

def TLayer.layoutRole : TLayer → Option String
  | .mk _ _ _ _ r _ _ _ _ => r

def TLayer.linkedAnchorId : TLayer → Option String
  | .mk _ _ _ _ _ a _ _ _ => a

def TLayer.citedRule : TLayer → Option String
  | .mk _ _ _ _ _ _ r _ _ => r

def TLayer.generativePrompt : TLayer → Option String
  | .mk _ _ _ _ _ _ _ p _ => p

def TLayer.children : TLayer → List TLayer
  | .mk _ _ _ _ _ _ _ _ c => c

/-- JS truthiness of an optional number: `undefined` and `0` are falsy. -/
def jsTruthyQ : Option ℚ → Bool
  | some q => q != 0
  | none => false

/-- `getOverride` of `src/unnamed/part_000` lines 14–25: feedback overrides
(when the `overrides` field is present) are searched first and a hit is
returned; otherwise the strategy's overrides (when present) are searched.
Resolution is per `layerId`. -/
def getOverride (layerId : String) (feedback : Option FeedbackStrategy)
    (strategy : Option LayoutStrategy) : Option LayerOverride :=
  match feedback.bind (·.overrides) with
  | some os =>
    match os.find? (fun o => o.layerId == layerId) with
    | some manual => some manual
    | none =>
      (strategy.bind (·.overrides)).bind (fun ss => ss.find? (fun o => o.layerId == layerId))
  | none =>
    (strategy.bind (·.overrides)).bind (fun ss => ss.find? (fun o => o.layerId == layerId))

/-- Modelled from the spec: the Override Resolver contract of spec §4.1, used
only as the comparison point for claim C1.  If feedback is present and contains
an Override with matching `layerId`, return it; else if strategy is present and
contains one, return it; else none. -/
def specResolveOverride (layerId : String) (feedback : Option FeedbackStrategy)
    (strategy : Option LayoutStrategy) : Option LayerOverride :=
  match feedback.bind (fun f => (f.overrides.getD []).find? (fun o => o.layerId == layerId)) with
  | some manual => some manual
  | none =>
    strategy.bind (fun s => (s.overrides.getD []).find? (fun o => o.layerId == layerId))

namespace RemapperInstance

/-- `RemapperNode.tsx` line 75: `overrides = feedback?.overrides ||
aiStrategy?.overrides || []`.  A present feedback override list — even an empty
one, arrays being truthy in JS — wholesale replaces the strategy's list. -/
def resolvedOverrides (feedback : Option FeedbackStrategy)
    (aiStrategy : Option LayoutStrategy) : List LayerOverride :=
  match feedback.bind (·.overrides) with
  | some os => os
  | none => (aiStrategy.bind (·.overrides)).getD []

/-- The `getOverride` closure of `RemapperNode.tsx` lines 78–80: first match by
`layerId` in the single resolved list. -/
def getOverride (overrides : List LayerOverride) (layerId : String) : Option LayerOverride :=
  overrides.find? (fun o => o.layerId == layerId)

end RemapperInstance

namespace RemapperInstanceRow

/-- Base scale of `src/unnamed/part_000` lines 87–93: when the strategy's
`suggestedScale` is truthy it is taken absolutely, otherwise the cover fit
`max(tgtW/srcW, tgtH/srcH)` is used. -/
def baseScale (srcW srcH tgtW tgtH : ℚ) (strategy : Option LayoutStrategy) : ℚ :=
  if jsTruthyQ (strategy.bind (·.suggestedScale)) then
    (strategy.bind (·.suggestedScale)).getD 0
  else
    max (tgtW / srcW) (tgtH / srcH)

mutual

/-- `transformLayer` of `src/unnamed/part_000` lines 96–166.  `sb`/`tb` are the
source and target container bounds and `bs` the base scale computed once per
invocation; the recursion into `children` reuses the same closure state. -/
def transformLayer (sb tb : Rect) (bs : ℚ) (strategy : Option LayoutStrategy)
    (feedback : Option FeedbackStrategy) : SLayer → TLayer
  | .mk id ty coords layoutRole linkedAnchorId citedRule children =>
    let override := getOverride id feedback strategy
    let relX := coords.x - sb.x
    let relY := coords.y - sb.y
    let scaledW := sb.w * bs
    let scaledH := sb.h * bs
    let offsetX := (tb.w - scaledW) / 2
    let offsetY := (tb.h - scaledH) / 2
    let x0 := relX * bs + offsetX + tb.x
    let y0 := relY * bs + offsetY + tb.y
    let w0 := coords.w * bs
    let h0 := coords.h * bs
    let geom : Rect × LayerTransform :=
      match override with
      | some o =>
        let x1 := x0 + o.xOffset
        let y1 := y0 + o.yOffset
        let indScale := if jsTruthyQ o.individualScale then o.individualScale.getD 1 else 1
        let cx := x1 + w0 / 2
        let cy := y1 + h0 / 2
        let w1 := w0 * indScale
        let h1 := h0 * indScale
        let x2 := cx - w1 / 2
        let y2 := cy - h1 / 2
        let rot := if jsTruthyQ o.rotation then o.rotation.getD 0 else 0
        (⟨x2, y2, w1, h1⟩, ⟨bs * indScale, bs * indScale, x2, y2, rot⟩)
      | none => (⟨x0, y0, w0, h0⟩, ⟨bs, bs, x0, y0, 0⟩)
    let newType :=
      if (match strategy with
          | some s => s.method == "GENERATIVE" && s.replaceLayerId == some id
          | none => false) then "generative" else ty
    let newPrompt : Option String :=
      match strategy with
      | some s => if s.replaceLayerId == some id then s.generativePrompt else none
      | none => none
    TLayer.mk id newType geom.1 geom.2 layoutRole linkedAnchorId citedRule newPrompt
      (transformList sb tb bs strategy feedback children)

/-- `layers.map(transformLayer)` of `src/unnamed/part_000` lines 161–168. -/
def transformList (sb tb : Rect) (bs : ℚ) (strategy : Option LayoutStrategy)
    (feedback : Option FeedbackStrategy) : List SLayer → List TLayer
  | [] => []
  | l :: ls =>
    transformLayer sb tb bs strategy feedback l :: transformList sb tb bs strategy feedback ls

end

/-- Flow-candidate filter of `src/unnamed/part_000` lines 175–181: the
resolved override's `layoutRole` equal to `"flow"`, or no/empty role (both are
falsy in JS) on a layer whose type is not `"group"`. -/
def isFlowItem (feedback : Option FeedbackStrategy) (strategy : Option LayoutStrategy)
    (l : TLayer) : Bool :=
  let role := (getOverride l.id feedback strategy).bind (·.layoutRole)
  role == some "flow" || ((role == none || role == some "") && l.type != "group")

/-- The collision sweep's per-item mutation (`src/unnamed/part_000` lines
201–202): both `coords.x` and `transform.offsetX` move by the same `diff`. -/
def shiftX (d : ℚ) : TLayer → TLayer
  | .mk id ty c t lr la cr gp ch =>
    .mk id ty { c with x := c.x + d } { t with offsetX := t.offsetX + d } lr la cr gp ch

/-- The sweep loop of `src/unnamed/part_000` lines 188–204, with the previous
item's final state carried explicitly: an item with a resolved override is
skipped (`continue`) but still becomes the next `prev`; an unlocked item whose
left edge is within `padding = 10` of `prev`'s right edge is shifted right by
the exact deficit. -/
def sweepAux (feedback : Option FeedbackStrategy) (strategy : Option LayoutStrategy)
    (prev : TLayer) : List TLayer → List TLayer
  | [] => []
  | curr :: rest =>
    if (getOverride curr.id feedback strategy).isSome then
      curr :: sweepAux feedback strategy curr rest
    else
      let prevEnd := prev.coords.x + prev.coords.w
      if curr.coords.x < prevEnd + 10 then
        let curr2 := shiftX (prevEnd + 10 - curr.coords.x) curr
        curr2 :: sweepAux feedback strategy curr2 rest
      else
        curr :: sweepAux feedback strategy curr rest

/-- The whole collision sweep (`for (let i = 1; ...)`): the first item is
never examined or moved. -/
def collisionSweep (feedback : Option FeedbackStrategy) (strategy : Option LayoutStrategy) :
    List TLayer → List TLayer
  | [] => []
  | first :: rest => first :: sweepAux feedback strategy first rest

end RemapperInstanceRow

namespace RemapperInstance

/-- Coordinate update `l.coords.x = v` used by the horizontal grid solver. -/
def TLayer.withX (v : ℚ) : TLayer → TLayer
  | .mk id ty c t lr la cr gp ch => .mk id ty { c with x := v } t lr la cr gp ch

/-- Coordinate update `l.coords.y = v` used by the vertical grid solver. -/
def TLayer.withY (v : ℚ) : TLayer → TLayer
  | .mk id ty c t lr la cr gp ch => .mk id ty { c with y := v } t lr la cr gp ch

mutual

/-- The per-layer mapping body of `transformLayers` in
`src/components/RemapperNode.tsx` lines 84–143: contain fit, every layer
centred on the target's centre unless an override pins it at
`targetBounds + offset`; `layoutRole`, `linkedAnchorId` and `citedRule` are
re-written from the resolved override. -/
def transformLayer (sb tb : Rect) (aiStrategy : Option LayoutStrategy)
    (overrides : List LayerOverride) : SLayer → TLayer
  | .mk id ty coords _role _linkedA _citedR children =>
    let scaleXGlobal := tb.w / sb.w
    let scaleYGlobal := tb.h / sb.h
    let uniformScale := min scaleXGlobal scaleYGlobal
    let override := getOverride overrides id
    let finalScale :=
      match override with
      | some o =>
        if jsTruthyQ o.individualScale then uniformScale * o.individualScale.getD 1
        else if jsTruthyQ (aiStrategy.bind (·.suggestedScale)) then
          uniformScale * (aiStrategy.bind (·.suggestedScale)).getD 1
        else uniformScale
      | none =>
        if jsTruthyQ (aiStrategy.bind (·.suggestedScale)) then
          uniformScale * (aiStrategy.bind (·.suggestedScale)).getD 1
        else uniformScale
    let layerW := coords.w * finalScale
    let layerH := coords.h * finalScale
    let cx := tb.x + tb.w / 2
    let cy := tb.y + tb.h / 2
    let posX :=
      match override with
      | some o => tb.x + o.xOffset
      | none => cx - layerW / 2
    let posY :=
      match override with
      | some o => tb.y + o.yOffset
      | none => cy - layerH / 2
    TLayer.mk id
      (if aiStrategy.bind (·.replaceLayerId) == some id then "generative" else ty)
      ⟨posX, posY, layerW, layerH⟩
      ⟨finalScale, finalScale, 0, 0, (override.bind (·.rotation)).getD 0⟩
      (override.bind (·.layoutRole))
      (override.bind (·.linkedAnchorId))
      (override.bind (·.citedRule))
      (match aiStrategy with
       | some s =>
         if s.method == "GENERATIVE" || s.method == "HYBRID" then s.generativePrompt else none
       | none => none)
      (mapLayers sb tb aiStrategy overrides children)

/-- The `layers.map(...)` part of `transformLayers`; children are mapped with
`depth + 1`, so the physics pass below never applies to them. -/
def mapLayers (sb tb : Rect) (aiStrategy : Option LayoutStrategy)
    (overrides : List LayerOverride) : List SLayer → List TLayer
  | [] => []
  | l :: ls =>
    transformLayer sb tb aiStrategy overrides l :: mapLayers sb tb aiStrategy overrides ls

end

/-- Grid-candidate filter of `RemapperNode.tsx` lines 152–161: no resolved
override, and the transformed layer's `layoutRole` absent, empty (both falsy)
or `"flow"`. -/
def isGridCandidate (overrides : List LayerOverride) (l : TLayer) : Bool :=
  (getOverride overrides l.id).isNone
    && (l.layoutRole == none || l.layoutRole == some "" || l.layoutRole == some "flow")

/-- Slot assignment of `RemapperNode.tsx` lines 164–176 for candidate number
`idx` of `n`: `margin = totalW * 0.05`, `step = (totalW - margin*2)/n`,
`slotCX = targetBounds.x + margin + step*idx + step/2`, and
`coords.x = slotCX - coords.w/2`. -/
def gridAssignX (tb : Rect) (n idx : ℕ) (l : TLayer) : TLayer :=
  let totalW := tb.w
  let margin := totalW * (5 / 100)
  let availableW := totalW - margin * 2
  let step := availableW / (n : ℚ)
  let slotCX := tb.x + margin + step * (idx : ℚ) + step / 2
  TLayer.withX (slotCX - l.coords.w / 2) l

/-- Slot assignment of `RemapperNode.tsx` lines 177–187, the vertical
symmetric case. -/
def gridAssignY (tb : Rect) (n idx : ℕ) (l : TLayer) : TLayer :=
  let totalH := tb.h
  let margin := totalH * (5 / 100)
  let availableH := totalH - margin * 2
  let step := availableH / (n : ℚ)
  let slotCY := tb.y + margin + step * (idx : ℚ) + step / 2
  TLayer.withY (slotCY - l.coords.h / 2) l

/-- The `gridCandidates.forEach` mutation replayed over the whole top-level
list: candidates are assigned consecutive slot indices in encounter order,
non-candidates pass through untouched. -/
def gridMapX (tb : Rect) (overrides : List LayerOverride) (n : ℕ) :
    ℕ → List TLayer → List TLayer
  | _, [] => []
  | idx, l :: rest =>
    if isGridCandidate overrides l then
      gridAssignX tb n idx l :: gridMapX tb overrides n (idx + 1) rest
    else
      l :: gridMapX tb overrides n idx rest

/-- Vertical version of `gridMapX`. -/
def gridMapY (tb : Rect) (overrides : List LayerOverride) (n : ℕ) :
    ℕ → List TLayer → List TLayer
  | _, [] => []
  | idx, l :: rest =>
    if isGridCandidate overrides l then
      gridAssignY tb n idx l :: gridMapY tb overrides n (idx + 1) rest
    else
      l :: gridMapY tb overrides n idx rest

/-- The depth-0 physics block of `RemapperNode.tsx` lines 147–190: with at
least one candidate, `DISTRIBUTE_HORIZONTAL`/`GRID` runs the horizontal
distribution and `DISTRIBUTE_VERTICAL` the vertical one; any other
`layoutMode` leaves the mapped list unchanged. -/
def physicsPass (tb : Rect) (strategy : LayoutStrategy) (overrides : List LayerOverride)
    (ls : List TLayer) : List TLayer :=
  let cands := ls.filter (isGridCandidate overrides)
  if cands.length > 0 then
    if strategy.layoutMode == some "DISTRIBUTE_HORIZONTAL" || strategy.layoutMode == some "GRID"
    then gridMapX tb overrides cands.length 0 ls
    else if strategy.layoutMode == some "DISTRIBUTE_VERTICAL" then
      gridMapY tb overrides cands.length 0 ls
    else ls
  else ls

/-- `transformLayers(sourceLayers)` at depth 0: the map followed by the physics
block, which only runs when an `aiStrategy` is present. -/
def transformLayers (sb tb : Rect) (aiStrategy : Option LayoutStrategy)
    (overrides : List LayerOverride) (ls : List SLayer) : List TLayer :=
  let t := mapLayers sb tb aiStrategy overrides ls
  match aiStrategy with
  | some s => physicsPass tb s overrides t
  | none => t

end RemapperInstance

/-- The source-side container (`sourceData.container`), read through
`containerName` and `bounds` by both engines. -/
structure SourceContainer where
  containerName : String
  bounds : Rect
deriving DecidableEq, Repr

/-- A target container row of the template registry (`targetData`):
`name` plus `bounds`. -/
structure TargetContainer where
  name : String
  bounds : Rect
deriving DecidableEq, Repr

/-- The resolved source object (`MappingContext`): container, layer tree,
optional AI strategy and preview URL. -/
structure MappingContext where
  container : SourceContainer
  layers : List SLayer
  aiStrategy : Option LayoutStrategy
  previewUrl : Option String

/-- Width/height metrics record of the payload. -/
structure SizeMetrics where
  w : ℚ
  h : ℚ
deriving DecidableEq, Repr

/-- The engine's sole output (`TransformedPayload`).  `isConfirmed` is an
`Option Bool` because `RemapperNode.tsx` can leave it JS-`undefined` (`none`);
`src/unnamed/part_000` always produces a boolean (`some`). -/
structure TransformedPayload where
  status : String
  sourceNodeId : String
  sourceContainer : String
  targetContainer : String
  layers : List TLayer
  scaleFactor : ℚ
  metricsSource : SizeMetrics
  metricsTarget : SizeMetrics
  targetBounds : Rect
  isConfirmed : Option Bool
  requiresGeneration : Bool
  sourceReference : Option String
  generationId : ℚ
  previewUrl : Option String
  triangulation : Option String

namespace RemapperInstanceRow

/-- The payload's layer list (`src/unnamed/part_000` lines 168–205): when
`strategy?.physicsRules?.preventOverlap` is truthy, the flow candidates are
sorted by mapped x and swept; the source mutates the shared layer objects in
place, which is replayed here by replacing each flow item with the swept
object of the same `id` (ids are unique within a tree, spec §3). -/
def solveLayers (feedback : Option FeedbackStrategy) (strategy : Option LayoutStrategy)
    (tls : List TLayer) : List TLayer :=
  if ((strategy.bind (·.physicsRules)).map (·.preventOverlap)).getD false then
    let flowItems := tls.filter (isFlowItem feedback strategy)
    let sorted := flowItems.mergeSort (fun a b => a.coords.x ≤ b.coords.x)
    let swept := collisionSweep feedback strategy sorted
    tls.map (fun l =>
      if isFlowItem feedback strategy l then (swept.find? (fun m => m.id == l.id)).getD l
      else l)
  else tls

/-- The whole effect body of `RemapperInstanceRow` (`src/unnamed/part_000`
lines 75–229): no payload without both inputs; otherwise map, solve and
assemble.  `now` stands for `Date.now()`. -/
def run (nodeId : String) (sourceData : Option MappingContext)
    (targetData : Option TargetContainer) (feedback : Option FeedbackStrategy)
    (now : ℚ) : Option TransformedPayload :=
  match sourceData, targetData with
  | some src, some tgt =>
    let strategy := src.aiStrategy
    let srcW := src.container.bounds.w
    let srcH := src.container.bounds.h
    let tgtW := tgt.bounds.w
    let tgtH := tgt.bounds.h
    let bs := baseScale srcW srcH tgtW tgtH strategy
    let transformedLayers :=
      solveLayers feedback strategy
        (transformList src.container.bounds tgt.bounds bs strategy feedback src.layers)
    some
      { status := "success"
        sourceNodeId := nodeId
        sourceContainer := src.container.containerName
        targetContainer := tgt.name
        layers := transformedLayers
        scaleFactor := bs
        metricsSource := ⟨srcW, srcH⟩
        metricsTarget := ⟨tgtW, tgtH⟩
        targetBounds := tgt.bounds
        isConfirmed := some ((feedback.map (·.isCommitted)).getD false)
        requiresGeneration :=
          (strategy.map (·.method)).getD "" == "GENERATIVE"
            || (strategy.map (·.method)).getD "" == "HYBRID"
        sourceReference := strategy.bind (·.sourceReference)
        generationId :=
          if jsTruthyQ (strategy.bind (·.timestamp)) then (strategy.bind (·.timestamp)).getD 0
          else now
        previewUrl := src.previewUrl
        triangulation := strategy.bind (·.triangulation) }
  | _, _ => none

end RemapperInstanceRow

namespace RemapperInstance

/-- `feedback?.isCommitted || sourceContext.aiStrategy?.isExplicitIntent`
(`RemapperNode.tsx` line 209), with JS `||` semantics: a truthy left operand
yields `true`, otherwise the raw right operand (possibly `undefined`). -/
def tsxIsConfirmed (feedback : Option FeedbackStrategy) (aiStrategy : Option LayoutStrategy) :
    Option Bool :=
  if (feedback.map (·.isCommitted)).getD false then some true
  else aiStrategy.bind (·.isExplicitIntent)

/-- The whole effect body of `RemapperInstance` (`RemapperNode.tsx` lines
71–222): no payload without both inputs; otherwise map, run the physics block
and assemble.  `targetName` stands for `containerNameFromHandle(...)` and `now`
for `Date.now()`. -/
def run (nodeId : String) (sourceContext : Option MappingContext) (targetBounds : Option Rect)
    (feedback : Option FeedbackStrategy) (targetName : Option String) (now : ℚ) :
    Option TransformedPayload :=
  match sourceContext, targetBounds with
  | some src, some tb =>
    let aiStrategy := src.aiStrategy
    let overrides := resolvedOverrides feedback aiStrategy
    let resultLayers := transformLayers src.container.bounds tb aiStrategy overrides src.layers
    some
      { status := "success"
        sourceNodeId := nodeId
        sourceContainer := src.container.containerName
        targetContainer := targetName.getD "Unknown"
        layers := resultLayers
        scaleFactor := 1
        metricsSource := ⟨src.container.bounds.w, src.container.bounds.h⟩
        metricsTarget := ⟨tb.w, tb.h⟩
        targetBounds := tb
        isConfirmed := tsxIsConfirmed feedback aiStrategy
        requiresGeneration :=
          (aiStrategy.map (·.method)).getD "" == "GENERATIVE"
            || (aiStrategy.map (·.method)).getD "" == "HYBRID"
        sourceReference := aiStrategy.bind (·.sourceReference)
        generationId := now
        previewUrl := src.previewUrl
        triangulation := aiStrategy.bind (·.triangulation) }
  | _, _ => none

end RemapperInstance

/-- IEEE-754 double values as JavaScript produces them on the degenerate
paths: a finite rational, the two infinities, or NaN.  Negative zero is not
distinguished (no source path the claims touch depends on it). -/
inductive JSNum : Type where
  | num (q : ℚ)
  | inf
  | ninf
  | nan
deriving DecidableEq, Repr

namespace JSNum

/-- IEEE addition. -/
def add : JSNum → JSNum → JSNum
  | nan, _ => nan
  | _, nan => nan
  | inf, ninf => nan
  | ninf, inf => nan
  | inf, _ => inf
  | _, inf => inf
  | ninf, _ => ninf
  | _, ninf => ninf
  | num a, num b => num (a + b)

/-- IEEE subtraction. -/
def sub : JSNum → JSNum → JSNum
  | nan, _ => nan
  | _, nan => nan
  | inf, inf => nan
  | ninf, ninf => nan
  | inf, _ => inf
  | _, inf => ninf
  | ninf, _ => ninf
  | _, ninf => inf
  | num a, num b => num (a - b)

/-- IEEE multiplication: zero times an infinity is NaN. -/
def mul : JSNum → JSNum → JSNum
  | nan, _ => nan
  | _, nan => nan
  | inf, inf => inf
  | inf, ninf => ninf
  | ninf, inf => ninf
  | ninf, ninf => inf
  | inf, num b => if b = 0 then nan else if 0 < b then inf else ninf
  | num a, inf => if a = 0 then nan else if 0 < a then inf else ninf
  | ninf, num b => if b = 0 then nan else if 0 < b then ninf else inf
  | num a, ninf => if a = 0 then nan else if 0 < a then ninf else inf
  | num a, num b => num (a * b)

/-- IEEE division: a non-zero finite over (positive) zero is an infinity,
zero over zero is NaN. -/
def div : JSNum → JSNum → JSNum
  | nan, _ => nan
  | _, nan => nan
  | inf, inf => nan
  | inf, ninf => nan
  | ninf, inf => nan
  | ninf, ninf => nan
  | inf, num b => if 0 ≤ b then inf else ninf
  | ninf, num b => if 0 ≤ b then ninf else inf
  | num _, inf => num 0
  | num _, ninf => num 0
  | num a, num b =>
    if b = 0 then (if a = 0 then nan else if 0 < a then inf else ninf)
    else num (a / b)

/-- `Math.max`: NaN-propagating maximum. -/
def jmax : JSNum → JSNum → JSNum
  | nan, _ => nan
  | _, nan => nan
  | inf, _ => inf
  | _, inf => inf
  | ninf, b => b
  | a, ninf => a
  | num a, num b => num (max a b)

end JSNum

namespace RemapperInstanceRow

/-- The numeric core of `src/unnamed/part_000` lines 88–115 replayed over
IEEE-style numbers for the claim about degenerate containers: base scale
(lines 88–93) and the un-overridden layer x (lines 100–114) exactly as the
source computes them.  On a source container of zero width JavaScript
produces `scaleX = Infinity`, `scaledW = 0 * Infinity = NaN` and a NaN
coordinate. -/
def mappedXJS (sb tb : Rect) (suggestedScale : Option ℚ) (layer : Rect) : JSNum :=
  let scaleX := JSNum.div (.num tb.w) (.num sb.w)
  let scaleY := JSNum.div (.num tb.h) (.num sb.h)
  let bs := if jsTruthyQ suggestedScale then JSNum.num (suggestedScale.getD 0)
            else JSNum.jmax scaleX scaleY
  let relX := JSNum.sub (.num layer.x) (.num sb.x)
  let scaledW := JSNum.mul (.num sb.w) bs
  let offsetX := JSNum.div (JSNum.sub (.num tb.w) scaledW) (.num 2)
  JSNum.add (JSNum.add (JSNum.mul relX bs) offsetX) (.num tb.x)

end RemapperInstanceRow

/-! ### Helper lemmas shared by the claim theorems -/

theorem strategy_find_part (layerId : String) (strategy : Option LayoutStrategy) :
    (strategy.bind (·.overrides)).bind (fun ss => ss.find? (fun o => o.layerId == layerId))
      = strategy.bind (fun s => (s.overrides.getD []).find? (fun o => o.layerId == layerId)) := by
  cases strategy with
  | none => rfl
  | some s =>
    obtain ⟨m, sc, lm, ov, rp, gp, pr, ei, sr, tr, ts⟩ := s
    cases ov <;> rfl

theorem shiftX_id (d : ℚ) (l : TLayer) : (RemapperInstanceRow.shiftX d l).id = l.id := by
  cases l
  rfl

theorem shiftX_coords_x (d : ℚ) (l : TLayer) :
    (RemapperInstanceRow.shiftX d l).coords.x = l.coords.x + d := by
  cases l
  rfl

theorem shiftX_zero (l : TLayer) : RemapperInstanceRow.shiftX 0 l = l := by
  cases l with
  | mk id ty c t lr la cr gp ch => simp [RemapperInstanceRow.shiftX]

theorem sweepAux_chain (feedback : Option FeedbackStrategy) (strategy : Option LayoutStrategy)
    (ls : List TLayer) : ∀ prev : TLayer,
    List.Chain'
      (fun a b => (getOverride b.id feedback strategy).isSome = false →
        b.coords.x ≥ a.coords.x + a.coords.w + 10)
      (prev :: RemapperInstanceRow.sweepAux feedback strategy prev ls) := by
  induction ls with
  | nil =>
    intro prev
    simp [RemapperInstanceRow.sweepAux]
  | cons curr rest ih =>
    intro prev
    simp only [RemapperInstanceRow.sweepAux]
    by_cases hov : (getOverride curr.id feedback strategy).isSome = true
    · rw [if_pos hov, List.chain'_cons]
      exact ⟨fun hf => absurd hov (by simp [shiftX_id, hf]), ih curr⟩
    · rw [if_neg hov]
      by_cases hlt : curr.coords.x < prev.coords.x + prev.coords.w + 10
      · rw [if_pos hlt, List.chain'_cons]
        refine ⟨fun hf => ?_, ih _⟩
        rw [shiftX_coords_x]
        linarith
      · rw [if_neg hlt, List.chain'_cons]
        exact ⟨fun hf => by linarith [not_lt.mp hlt], ih curr⟩

theorem sweepAux_forall₂ (feedback : Option FeedbackStrategy)
    (strategy : Option LayoutStrategy) (ls : List TLayer) : ∀ prev : TLayer,
    List.Forall₂ (fun a b => ∃ d : ℚ, 0 ≤ d ∧ b = RemapperInstanceRow.shiftX d a)
      ls (RemapperInstanceRow.sweepAux feedback strategy prev ls) := by
  induction ls with
  | nil =>
    intro prev
    simp [RemapperInstanceRow.sweepAux]
  | cons curr rest ih =>
    intro prev
    simp only [RemapperInstanceRow.sweepAux]
    by_cases hov : (getOverride curr.id feedback strategy).isSome = true
    · rw [if_pos hov]
      exact List.Forall₂.cons ⟨0, le_refl 0, (shiftX_zero curr).symm⟩ (ih curr)
    · rw [if_neg hov]
      by_cases hlt : curr.coords.x < prev.coords.x + prev.coords.w + 10
      · rw [if_pos hlt]
        exact List.Forall₂.cons
          ⟨prev.coords.x + prev.coords.w + 10 - curr.coords.x, by linarith, rfl⟩ (ih _)
      · rw [if_neg hlt]
        exact List.Forall₂.cons ⟨0, le_refl 0, (shiftX_zero curr).symm⟩ (ih curr)

theorem sweepAux_locked (feedback : Option FeedbackStrategy)
    (strategy : Option LayoutStrategy) (ls : List TLayer) : ∀ prev : TLayer,
    List.Forall₂ (fun a b => (getOverride a.id feedback strategy).isSome = true → b = a)
      ls (RemapperInstanceRow.sweepAux feedback strategy prev ls) := by
  induction ls with
  | nil =>
    intro prev
    simp [RemapperInstanceRow.sweepAux]
  | cons curr rest ih =>
    intro prev
    simp only [RemapperInstanceRow.sweepAux]
    by_cases hov : (getOverride curr.id feedback strategy).isSome = true
    · rw [if_pos hov]
      exact List.Forall₂.cons (fun _ => rfl) (ih curr)
    · rw [if_neg hov]
      by_cases hlt : curr.coords.x < prev.coords.x + prev.coords.w + 10
      · rw [if_pos hlt]
        exact List.Forall₂.cons (fun hf => absurd hf hov) (ih _)
      · rw [if_neg hlt]
        exact List.Forall₂.cons (fun _ => rfl) (ih curr)

theorem sweepAux_exact (feedback : Option FeedbackStrategy)
    (strategy : Option LayoutStrategy) (rest : List TLayer) :
    ∀ (prev : TLayer) (i : ℕ) (a b b' : TLayer),
    rest[i]? = some a →
    (RemapperInstanceRow.sweepAux feedback strategy prev rest)[i]? = some b' →
    (prev :: RemapperInstanceRow.sweepAux feedback strategy prev rest)[i]? = some b →
    (getOverride a.id feedback strategy).isSome = false →
    b'.coords.x = max a.coords.x (b.coords.x + b.coords.w + 10) := by
  induction rest with
  | nil =>
    intro prev i a b b' ha
    simp at ha
  | cons curr rrest ih =>
    intro prev i a b b' ha hb' hb hna
    simp only [RemapperInstanceRow.sweepAux] at hb' hb
    by_cases hov : (getOverride curr.id feedback strategy).isSome = true
    · rw [if_pos hov] at hb' hb
      cases i with
      | zero =>
        simp only [List.getElem?_cons_zero, Option.some.injEq] at ha
        subst ha
        simp [hna] at hov
      | succ j =>
        simp only [List.getElem?_cons_succ] at ha hb' hb
        exact ih curr j a b b' ha hb' hb hna
    · rw [if_neg hov] at hb' hb
      by_cases hlt : curr.coords.x < prev.coords.x + prev.coords.w + 10
      · rw [if_pos hlt] at hb' hb
        cases i with
        | zero =>
          simp only [List.getElem?_cons_zero, Option.some.injEq] at ha hb' hb
          subst ha
          subst hb'
          subst hb
          rw [shiftX_coords_x, max_eq_right (le_of_lt hlt)]
          ring
        | succ j =>
          simp only [List.getElem?_cons_succ] at ha hb' hb
          exact ih _ j a b b' ha hb' hb hna
      · rw [if_neg hlt] at hb' hb
        cases i with
        | zero =>
          simp only [List.getElem?_cons_zero, Option.some.injEq] at ha hb' hb
          subst ha
          subst hb'
          subst hb
          exact (max_eq_left (not_lt.mp hlt)).symm
        | succ j =>
          simp only [List.getElem?_cons_succ] at ha hb' hb
          exact ih _ j a b b' ha hb' hb hna

theorem gridMapX_locked (tb : Rect) (ov : List LayerOverride) (n : ℕ) :
    ∀ (idx : ℕ) (ls : List TLayer),
    List.Forall₂ (fun a b => (RemapperInstance.getOverride ov a.id).isSome = true → b = a)
      ls (RemapperInstance.gridMapX tb ov n idx ls) := by
  intro idx ls
  induction ls generalizing idx with
  | nil => simp [RemapperInstance.gridMapX]
  | cons l rest ih =>
    simp only [RemapperInstance.gridMapX]
    by_cases hc : RemapperInstance.isGridCandidate ov l = true
    · rw [if_pos hc]
      refine List.Forall₂.cons (fun hov => absurd hov ?_) (ih _)
      simp only [RemapperInstance.isGridCandidate, Bool.and_eq_true] at hc
      simp [Option.isNone_iff_eq_none.mp hc.1]
    · rw [if_neg hc]
      exact List.Forall₂.cons (fun _ => rfl) (ih _)

theorem gridMapY_locked (tb : Rect) (ov : List LayerOverride) (n : ℕ) :
    ∀ (idx : ℕ) (ls : List TLayer),
    List.Forall₂ (fun a b => (RemapperInstance.getOverride ov a.id).isSome = true → b = a)
      ls (RemapperInstance.gridMapY tb ov n idx ls) := by
  intro idx ls
  induction ls generalizing idx with
  | nil => simp [RemapperInstance.gridMapY]
  | cons l rest ih =>
    simp only [RemapperInstance.gridMapY]
    by_cases hc : RemapperInstance.isGridCandidate ov l = true
    · rw [if_pos hc]
      refine List.Forall₂.cons (fun hov => absurd hov ?_) (ih _)
      simp only [RemapperInstance.isGridCandidate, Bool.and_eq_true] at hc
      simp [Option.isNone_iff_eq_none.mp hc.1]
    · rw [if_neg hc]
      exact List.Forall₂.cons (fun _ => rfl) (ih _)

theorem withX_coords_x (v : ℚ) (l : TLayer) :
    (RemapperInstance.TLayer.withX v l).coords.x = v := by
  cases l
  rfl

theorem withX_coords_y (v : ℚ) (l : TLayer) :
    (RemapperInstance.TLayer.withX v l).coords.y = l.coords.y := by
  cases l
  rfl

theorem withX_coords_w (v : ℚ) (l : TLayer) :
    (RemapperInstance.TLayer.withX v l).coords.w = l.coords.w := by
  cases l
  rfl

theorem withX_coords_h (v : ℚ) (l : TLayer) :
    (RemapperInstance.TLayer.withX v l).coords.h = l.coords.h := by
  cases l
  rfl

theorem withX_transform (v : ℚ) (l : TLayer) :
    (RemapperInstance.TLayer.withX v l).transform = l.transform := by
  cases l
  rfl

theorem withX_id (v : ℚ) (l : TLayer) :
    (RemapperInstance.TLayer.withX v l).id = l.id := by
  cases l
  rfl

theorem withX_type (v : ℚ) (l : TLayer) :
    (RemapperInstance.TLayer.withX v l).type = l.type := by
  cases l
  rfl

theorem gridAssignX_candidate (tb : Rect) (ov : List LayerOverride) (n idx : ℕ)
    (l : TLayer) :
    RemapperInstance.isGridCandidate ov (RemapperInstance.gridAssignX tb n idx l)
      = RemapperInstance.isGridCandidate ov l := by
  cases l
  rfl

/-- Specification helper for the grid lemmas: assign consecutive slot indices
starting at `idx` to every element of a list (the image under the filter of
`gridMapX`). -/
def gridSlotsX (tb : Rect) (n : ℕ) : ℕ → List TLayer → List TLayer
  | _, [] => []
  | idx, l :: rest => RemapperInstance.gridAssignX tb n idx l :: gridSlotsX tb n (idx + 1) rest

theorem gridMapX_filter (tb : Rect) (ov : List LayerOverride) (n : ℕ) :
    ∀ (idx : ℕ) (ls : List TLayer),
    (RemapperInstance.gridMapX tb ov n idx ls).filter (RemapperInstance.isGridCandidate ov)
      = gridSlotsX tb n idx (ls.filter (RemapperInstance.isGridCandidate ov)) := by
  intro idx ls
  induction ls generalizing idx with
  | nil => rfl
  | cons l rest ih =>
    simp only [RemapperInstance.gridMapX]
    by_cases hc : RemapperInstance.isGridCandidate ov l = true
    · rw [if_pos hc, List.filter_cons_of_pos (by rw [gridAssignX_candidate]; exact hc),
        List.filter_cons_of_pos hc]
      rw [gridSlotsX, ih]
    · rw [if_neg hc, List.filter_cons_of_neg hc, List.filter_cons_of_neg hc]
      exact ih idx

theorem gridSlotsX_getElem (tb : Rect) (n : ℕ) :
    ∀ (idx : ℕ) (ls : List TLayer) (i : ℕ),
    (gridSlotsX tb n idx ls)[i]? = (ls[i]?).map (RemapperInstance.gridAssignX tb n (idx + i)) := by
  intro idx ls
  induction ls generalizing idx with
  | nil =>
    intro i
    simp [gridSlotsX]
  | cons l rest ih =>
    intro i
    cases i with
    | zero => simp [gridSlotsX]
    | succ j =>
      simp only [gridSlotsX, List.getElem?_cons_succ]
      rw [ih (idx + 1) j]
      have harith : idx + 1 + j = idx + (j + 1) := by omega
      rw [harith]

/-! ### Concrete inputs used by counterexamples and witnesses -/

def oA : LayerOverride := ⟨"A", 1, 2, none, none, none, none, none⟩

def oL : LayerOverride := ⟨"L", 3, 4, none, none, none, none, none⟩

def fbC1 : FeedbackStrategy := ⟨some [oA], false⟩

def stC1 : LayoutStrategy :=
  ⟨"GEOMETRIC", none, none, some [oL], none, none, none, none, none, none, none⟩

/-! ### Claim theorems -/

/-- C1 (counterexample): in `RemapperNode.tsx`, with feedback present holding
an override only for layer "A" and the strategy holding one for layer "L",
resolution for "L" returns nothing — the strategy's override for "L" is NOT
resolved, contradicting the claim that priority is decided per `layerId`. -/
theorem claim_C1_counterexample :
    fbC1.overrides = some [oA] ∧ oA.layerId ≠ "L"
      ∧ stC1.overrides = some [oL] ∧ oL.layerId = "L"
      ∧ RemapperInstance.getOverride
          (RemapperInstance.resolvedOverrides (some fbC1) (some stC1)) "L" = none := by
  refine ⟨rfl, ?_, rfl, rfl, rfl⟩
  decide

/-- C1 (amended): per-`layerId` priority (feedback override for that id when
present, else the strategy's) holds of `getOverride` in `src/unnamed/part_000`,
which agrees with the spec §4.1 resolver on every input; in
`RemapperNode.tsx`, by contrast, a present feedback override list wholesale
replaces the strategy's list, so resolution searches only the feedback list. -/
theorem claim_C1_amended :
    (∀ (layerId : String) (feedback : Option FeedbackStrategy)
        (strategy : Option LayoutStrategy),
      getOverride layerId feedback strategy = specResolveOverride layerId feedback strategy)
    ∧ ∀ (layerId : String) (os : List LayerOverride) (committed : Bool)
        (strategy : Option LayoutStrategy),
      RemapperInstance.getOverride
          (RemapperInstance.resolvedOverrides (some ⟨some os, committed⟩) strategy) layerId
        = os.find? (fun o => o.layerId == layerId) := by
  constructor
  · intro layerId feedback strategy
    unfold getOverride specResolveOverride
    cases feedback with
    | none => exact strategy_find_part layerId strategy
    | some f =>
      obtain ⟨fov, fc⟩ := f
      cases fov with
      | none => exact strategy_find_part layerId strategy
      | some os =>
        simp only [getOverride, specResolveOverride, Option.some_bind, Option.getD_some]
        cases h : os.find? (fun o => o.layerId == layerId) with
        | none =>
          simp only [h]
          exact strategy_find_part layerId strategy
        | some m => simp only [h]
  · intro layerId os committed strategy
    rfl

/-- C10: every payload either implementation registers has `status` equal to
`"success"`, on every input (when no payload is emitted there is nothing to
check). -/
theorem claim_C10_status_success :
    ∀ (nodeId : String) (sourceData : Option MappingContext)
      (targetData : Option TargetContainer) (tb : Option Rect)
      (feedback : Option FeedbackStrategy) (targetName : Option String) (now : ℚ),
      (RemapperInstanceRow.run nodeId sourceData targetData feedback now).elim True
        (fun p => p.status = "success")
      ∧ (RemapperInstance.run nodeId sourceData tb feedback targetName now).elim True
        (fun p => p.status = "success") := by
  intro nodeId sourceData targetData tb feedback targetName now
  constructor
  · cases sourceData <;> cases targetData <;> trivial
  · cases sourceData <;> cases tb <;> trivial

def stC5 : LayoutStrategy :=
  ⟨"HYBRID", none, none, none, some "a", some "replace with sunset", none, none, none, none, none⟩

def lC5 : SLayer := .mk "a" "text" ⟨0, 0, 10, 10⟩ none none none []

/-- C5 (counterexample): in `src/unnamed/part_000`, with `method = "HYBRID"`
and `replaceLayerId` equal to the layer's id, the claim says the output type is
`"generative"`; the code only promotes when `method === 'GENERATIVE'`, so the
layer keeps its original type `"text"`. -/
theorem claim_C5_counterexample :
    stC5.method = "HYBRID" ∧ stC5.replaceLayerId = some lC5.id
      ∧ (RemapperInstanceRow.transformLayer ⟨0, 0, 100, 100⟩ ⟨0, 0, 200, 200⟩ 2
          (some stC5) none lC5).type = "text"
      ∧ "text" ≠ "generative" := by
  refine ⟨rfl, rfl, rfl, ?_⟩
  decide

/-- C5 (amended): in `src/unnamed/part_000` the type is promoted iff
`method = "GENERATIVE"` (HYBRID does not promote) and `replaceLayerId` matches,
while `generativePrompt` is carried onto the matching layer under any method;
in `RemapperNode.tsx` the type is promoted iff `replaceLayerId` matches under
any method, while `generativePrompt` is carried onto every layer iff
`method ∈ {GENERATIVE, HYBRID}`. -/
theorem claim_C5_amended :
    ∀ (sb tb : Rect) (bs : ℚ) (s : LayoutStrategy) (feedback : Option FeedbackStrategy)
      (overrides : List LayerOverride) (l : SLayer),
      ((RemapperInstanceRow.transformLayer sb tb bs (some s) feedback l).type
          = (if s.method = "GENERATIVE" ∧ s.replaceLayerId = some l.id
             then "generative" else l.type)
        ∧ (RemapperInstanceRow.transformLayer sb tb bs (some s) feedback l).generativePrompt
          = (if s.replaceLayerId = some l.id then s.generativePrompt else none))
      ∧ ((RemapperInstance.transformLayer sb tb (some s) overrides l).type
          = (if s.replaceLayerId = some l.id then "generative" else l.type)
        ∧ (RemapperInstance.transformLayer sb tb (some s) overrides l).generativePrompt
          = (if s.method = "GENERATIVE" ∨ s.method = "HYBRID"
             then s.generativePrompt else none)) := by
  intro sb tb bs s feedback overrides l
  obtain ⟨id, ty, coords, role, la, cr, ch⟩ := l
  refine ⟨⟨?_, ?_⟩, ⟨?_, ?_⟩⟩ <;>
    simp [RemapperInstanceRow.transformLayer, RemapperInstance.transformLayer,
      SLayer.id, SLayer.type, TLayer.type, TLayer.generativePrompt, Option.bind_some]

def srcC8 : MappingContext :=
  ⟨⟨"hero", ⟨0, 0, 100, 100⟩⟩, [],
    some ⟨"GEOMETRIC", none, none, none, none, none, none, some true, none, none, none⟩, none⟩

def tgtC8 : TargetContainer := ⟨"slot", ⟨0, 0, 200, 200⟩⟩

/-- C8 (counterexample): in `src/unnamed/part_000`, with no feedback and a
strategy carrying the explicit-intent flag `true`, the claim says `isConfirmed`
equals that flag (`true`); the code computes `feedback?.isCommitted || false`
and never consults the strategy, so the payload carries `false`. -/
theorem claim_C8_counterexample :
    (srcC8.aiStrategy.bind (·.isExplicitIntent)) = some true
      ∧ (RemapperInstanceRow.run "n" (some srcC8) (some tgtC8) none 0).map (·.isConfirmed)
        = some (some false)
      ∧ (some false : Option Bool) ≠ some true := by
  refine ⟨rfl, rfl, ?_⟩
  decide

/-- C8 (amended): `src/unnamed/part_000` sets `isConfirmed` to
`feedback.isCommitted` when feedback is present and `false` otherwise, never
consulting the strategy's explicit-intent flag; `RemapperNode.tsx` computes
`feedback?.isCommitted || aiStrategy?.isExplicitIntent`, so a present feedback
with `isCommitted = false` falls through to the strategy's flag, and with
neither set the field is left `undefined`, not `false`. -/
theorem claim_C8_amended :
    ∀ (nodeId : String) (src : MappingContext) (tgt : TargetContainer) (tb : Rect)
      (feedback : Option FeedbackStrategy) (targetName : Option String) (now : ℚ),
      (RemapperInstanceRow.run nodeId (some src) (some tgt) feedback now).map (·.isConfirmed)
        = some (some (match feedback with | some f => f.isCommitted | none => false))
      ∧ (RemapperInstance.run nodeId (some src) (some tb) feedback targetName now).map
          (·.isConfirmed)
        = some (if (match feedback with | some f => f.isCommitted | none => false) = true
                then some true
                else src.aiStrategy.bind (·.isExplicitIntent)) := by
  intro nodeId src tgt tb feedback targetName now
  cases feedback with
  | none => exact ⟨rfl, rfl⟩
  | some f =>
    constructor
    · rfl
    · show some (RemapperInstance.tsxIsConfirmed (some f) src.aiStrategy) = _
      unfold RemapperInstance.tsxIsConfirmed
      simp

def lC9 : SLayer := .mk "a" "text" ⟨0, 0, 10, 10⟩ none (some "anchor1") (some "rule7") []

/-- C9 (counterexample): in `RemapperNode.tsx`, a layer carrying
`linkedAnchorId = "anchor1"` and `citedRule = "rule7"` with no override
resolved comes out with both fields `undefined` — the mapper overwrites them
from the (absent) override instead of passing them through. -/
theorem claim_C9_counterexample :
    lC9.linkedAnchorId = some "anchor1" ∧ lC9.citedRule = some "rule7"
      ∧ (RemapperInstance.transformLayer ⟨0, 0, 100, 100⟩ ⟨0, 0, 200, 200⟩ none []
          lC9).linkedAnchorId = none
      ∧ (RemapperInstance.transformLayer ⟨0, 0, 100, 100⟩ ⟨0, 0, 200, 200⟩ none []
          lC9).citedRule = none := ⟨rfl, rfl, rfl, rfl⟩

/-- C9 (amended): `src/unnamed/part_000` passes `linkedAnchorId` and
`citedRule` through from the input layer unmodified (the spread keeps them);
`RemapperNode.tsx` replaces both with the resolved override's values —
`undefined` whenever no override is resolved or the override lacks them. -/
theorem claim_C9_amended :
    ∀ (sb tb : Rect) (bs : ℚ) (strategy : Option LayoutStrategy)
      (feedback : Option FeedbackStrategy) (overrides : List LayerOverride) (l : SLayer),
      ((RemapperInstanceRow.transformLayer sb tb bs strategy feedback l).linkedAnchorId
          = l.linkedAnchorId
        ∧ (RemapperInstanceRow.transformLayer sb tb bs strategy feedback l).citedRule
          = l.citedRule)
      ∧ ((RemapperInstance.transformLayer sb tb strategy overrides l).linkedAnchorId
          = (RemapperInstance.getOverride overrides l.id).bind (·.linkedAnchorId)
        ∧ (RemapperInstance.transformLayer sb tb strategy overrides l).citedRule
          = (RemapperInstance.getOverride overrides l.id).bind (·.citedRule)) := by
  intro sb tb bs strategy feedback overrides l
  obtain ⟨id, ty, coords, role, la, cr, ch⟩ := l
  exact ⟨⟨rfl, rfl⟩, ⟨rfl, rfl⟩⟩

def srcC2 : MappingContext :=
  ⟨⟨"degen", ⟨0, 0, 0, 100⟩⟩, [SLayer.mk "l0" "text" ⟨0, 0, 50, 50⟩ none none none []],
    none, none⟩

def tgtC2 : TargetContainer := ⟨"slot", ⟨0, 0, 400, 200⟩⟩

/-- C2 (code bug): with a source container of width zero and target bounds
present, neither implementation raises any error — both register a payload —
and the x coordinate `src/unnamed/part_000` computes for the layer is IEEE
NaN (`scaleX = 400/0 = +inf`, `scaledW = 0 * inf = NaN`, and NaN propagates
into the final position). -/
theorem claim_C2_code_bug :
    (RemapperInstanceRow.run "n" (some srcC2) (some tgtC2) none 0).isSome = true
      ∧ (RemapperInstance.run "n" (some srcC2) (some (⟨0, 0, 400, 200⟩ : Rect))
          none none 0).isSome = true
      ∧ RemapperInstanceRow.mappedXJS ⟨0, 0, 0, 100⟩ ⟨0, 0, 400, 200⟩ none ⟨0, 0, 50, 50⟩
        = JSNum.nan := by
  refine ⟨rfl, rfl, ?_⟩
  simp only [RemapperInstanceRow.mappedXJS, jsTruthyQ, Option.getD_none]
  norm_num [JSNum.div, JSNum.jmax, JSNum.mul, JSNum.sub, JSNum.add]

def srcC3 : MappingContext :=
  ⟨⟨"hero", ⟨0, 0, 100, 100⟩⟩, [SLayer.mk "l0" "text" ⟨0, 0, 50, 50⟩ none none none []],
    none, none⟩

def tgtC3 : TargetContainer := ⟨"slot", ⟨10, 10, 400, 200⟩⟩

/-- C3 (counterexample): source container 100×100 at the origin with one layer
`{x:0, y:0, w:50, h:50}`, no overrides, target 400×200 at (10,10) — the
setup of the claim's concrete example.  `src/unnamed/part_000` uses the cover
fit `max(4, 2) = 4`, not contain, so the layer lands at (10, −90) with size
200×200; `RemapperNode.tsx` uses the contain fit but pins the un-overridden
layer at the target's center, landing it at (160, 60) with size 100×100.
Neither implementation produces the claimed (110, 10). -/
theorem claim_C3_counterexample :
    (RemapperInstanceRow.run "n" (some srcC3) (some tgtC3) none 0).map
        (fun p => p.layers.map TLayer.coords)
      = some [⟨10, -90, 200, 200⟩]
      ∧ ¬((10 : ℚ) = 110 ∧ (-90 : ℚ) = 10)
      ∧ (RemapperInstance.run "n" (some srcC3) (some (⟨10, 10, 400, 200⟩ : Rect))
            none none 0).map (fun p => p.layers.map TLayer.coords)
        = some [⟨160, 60, 100, 100⟩]
      ∧ ¬((160 : ℚ) = 110 ∧ (60 : ℚ) = 10) := by
  refine ⟨?_, by norm_num, ?_, by norm_num⟩
  · show some _ = _
    simp only [RemapperInstanceRow.solveLayers, RemapperInstanceRow.transformList,
      RemapperInstanceRow.transformLayer, RemapperInstanceRow.baseScale,
      getOverride, jsTruthyQ, srcC3, tgtC3, TLayer.coords]
    norm_num [max_def, TLayer.coords]
  · show some _ = _
    norm_num [RemapperInstance.transformLayers, RemapperInstance.mapLayers,
      RemapperInstance.transformLayer, RemapperInstance.resolvedOverrides,
      RemapperInstance.getOverride, jsTruthyQ, srcC3, TLayer.coords, min_def,
      List.find?]

/-- C3 (amended): for a layer with no resolved override,
`src/unnamed/part_000` produces exactly the claimed affine formula
`x = (layer.x - sourceBounds.x)·baseScale + (targetBounds.w -
sourceBounds.w·baseScale)/2 + targetBounds.x` (and analogously for y) with
`w = layer.w·baseScale`, `h = layer.h·baseScale` — but its base scale policy
is cover (`max` of the axis ratios), not contain, whenever no truthy
`suggestedScale` is given, so on the claim's concrete setup the layer lands at
x = 10, y = −90, not x = 110, y = 10; `RemapperNode.tsx` does not satisfy the
affine formula at all: it scales by the contain fit (`min` of the axis ratios,
times `suggestedScale` when truthy) and pins every un-overridden layer at the
target's center, `x = targetBounds.x + targetBounds.w/2 − w·scale/2`
(landing the same setup at x = 160, y = 60, per the counterexample). -/
theorem claim_C3_amended (src : SourceContainer) (tb : Rect)
    (strategy : Option LayoutStrategy) (feedback : Option FeedbackStrategy)
    (overrides : List LayerOverride) (l : SLayer)
    (h : getOverride l.id feedback strategy = none)
    (h2 : RemapperInstance.getOverride overrides l.id = none) :
    (RemapperInstanceRow.transformLayer src.bounds tb
        (RemapperInstanceRow.baseScale src.bounds.w src.bounds.h tb.w tb.h strategy)
        strategy feedback l).coords
      = ⟨(l.coords.x - src.bounds.x)
            * RemapperInstanceRow.baseScale src.bounds.w src.bounds.h tb.w tb.h strategy
          + (tb.w - src.bounds.w
              * RemapperInstanceRow.baseScale src.bounds.w src.bounds.h tb.w tb.h strategy) / 2
          + tb.x,
         (l.coords.y - src.bounds.y)
            * RemapperInstanceRow.baseScale src.bounds.w src.bounds.h tb.w tb.h strategy
          + (tb.h - src.bounds.h
              * RemapperInstanceRow.baseScale src.bounds.w src.bounds.h tb.w tb.h strategy) / 2
          + tb.y,
         l.coords.w * RemapperInstanceRow.baseScale src.bounds.w src.bounds.h tb.w tb.h strategy,
         l.coords.h * RemapperInstanceRow.baseScale src.bounds.w src.bounds.h tb.w tb.h strategy⟩
      ∧ RemapperInstanceRow.baseScale src.bounds.w src.bounds.h tb.w tb.h none
        = max (tb.w / src.bounds.w) (tb.h / src.bounds.h)
      ∧ (RemapperInstance.transformLayer src.bounds tb strategy overrides l).coords
        = ⟨tb.x + tb.w / 2
            - l.coords.w
                * (if jsTruthyQ (strategy.bind (·.suggestedScale)) then
                    min (tb.w / src.bounds.w) (tb.h / src.bounds.h)
                      * (strategy.bind (·.suggestedScale)).getD 1
                  else min (tb.w / src.bounds.w) (tb.h / src.bounds.h)) / 2,
           tb.y + tb.h / 2
            - l.coords.h
                * (if jsTruthyQ (strategy.bind (·.suggestedScale)) then
                    min (tb.w / src.bounds.w) (tb.h / src.bounds.h)
                      * (strategy.bind (·.suggestedScale)).getD 1
                  else min (tb.w / src.bounds.w) (tb.h / src.bounds.h)) / 2,
           l.coords.w
            * (if jsTruthyQ (strategy.bind (·.suggestedScale)) then
                min (tb.w / src.bounds.w) (tb.h / src.bounds.h)
                  * (strategy.bind (·.suggestedScale)).getD 1
              else min (tb.w / src.bounds.w) (tb.h / src.bounds.h)),
           l.coords.h
            * (if jsTruthyQ (strategy.bind (·.suggestedScale)) then
                min (tb.w / src.bounds.w) (tb.h / src.bounds.h)
                  * (strategy.bind (·.suggestedScale)).getD 1
              else min (tb.w / src.bounds.w) (tb.h / src.bounds.h))⟩ := by
  refine ⟨?_, rfl, ?_⟩
  · obtain ⟨id, ty, coords, role, la, cr, ch⟩ := l
    simp only [SLayer.id] at h
    simp [RemapperInstanceRow.transformLayer, h, SLayer.coords, TLayer.coords]
  · obtain ⟨id, ty, coords, role, la, cr, ch⟩ := l
    simp only [SLayer.id] at h2
    simp [RemapperInstance.transformLayer, h2, SLayer.coords, TLayer.coords]

/-- C3 witness: the amended theorem applied at the claim's own concrete
setup, where neither resolver finds an override. -/
theorem claim_C3_witness :
    getOverride "l0" none none = none
      ∧ RemapperInstance.getOverride [] "l0" = none
      ∧ ((RemapperInstanceRow.transformLayer (⟨0, 0, 100, 100⟩ : Rect) ⟨10, 10, 400, 200⟩
            (RemapperInstanceRow.baseScale 100 100 400 200 none) none none
            (SLayer.mk "l0" "text" ⟨0, 0, 50, 50⟩ none none none [])).coords
          = ⟨(0 - 0) * RemapperInstanceRow.baseScale 100 100 400 200 none
              + (400 - 100 * RemapperInstanceRow.baseScale 100 100 400 200 none) / 2 + 10,
             (0 - 0) * RemapperInstanceRow.baseScale 100 100 400 200 none
              + (200 - 100 * RemapperInstanceRow.baseScale 100 100 400 200 none) / 2 + 10,
             50 * RemapperInstanceRow.baseScale 100 100 400 200 none,
             50 * RemapperInstanceRow.baseScale 100 100 400 200 none⟩
          ∧ RemapperInstanceRow.baseScale 100 100 400 200 none = max (400 / 100) (200 / 100)
          ∧ (RemapperInstance.transformLayer (⟨0, 0, 100, 100⟩ : Rect) ⟨10, 10, 400, 200⟩
                none [] (SLayer.mk "l0" "text" ⟨0, 0, 50, 50⟩ none none none [])).coords
            = ⟨10 + 400 / 2 - 50 * min (400 / 100) (200 / 100) / 2,
               10 + 200 / 2 - 50 * min (400 / 100) (200 / 100) / 2,
               50 * min (400 / 100) (200 / 100),
               50 * min (400 / 100) (200 / 100)⟩) :=
  ⟨rfl, rfl, claim_C3_amended ⟨"hero", ⟨0, 0, 100, 100⟩⟩ ⟨10, 10, 400, 200⟩ none none []
    (SLayer.mk "l0" "text" ⟨0, 0, 50, 50⟩ none none none []) rfl rfl⟩

/-- C4: layers with a resolved override are immutable for both solver passes —
the collision sweep of `src/unnamed/part_000` and the grid/distribution pass of
`RemapperNode.tsx` return them exactly as the geometry mapper produced them
(the whole layer, so in particular `coords.x/y/w/h` and `transform`),
regardless of `layoutRole`, on every top-level layer list. -/
theorem claim_C4_locked_layers_immutable :
    (∀ (feedback : Option FeedbackStrategy) (strategy : Option LayoutStrategy)
        (ls : List TLayer),
      List.Forall₂ (fun a b => (getOverride a.id feedback strategy).isSome = true → b = a)
        ls (RemapperInstanceRow.collisionSweep feedback strategy ls))
    ∧ ∀ (tb : Rect) (s : LayoutStrategy) (overrides : List LayerOverride) (ls : List TLayer),
      List.Forall₂ (fun a b => (RemapperInstance.getOverride overrides a.id).isSome = true → b = a)
        ls (RemapperInstance.physicsPass tb s overrides ls) := by
  constructor
  · intro feedback strategy ls
    cases ls with
    | nil => simp [RemapperInstanceRow.collisionSweep]
    | cons first rest =>
      exact List.Forall₂.cons (fun _ => rfl) (sweepAux_locked feedback strategy rest first)
  · intro tb s overrides ls
    simp only [RemapperInstance.physicsPass]
    split
    · split
      · exact gridMapX_locked tb overrides _ 0 ls
      · split
        · exact gridMapY_locked tb overrides _ 0 ls
        · exact List.forall₂_same.mpr (fun x _ _ => rfl)
    · exact List.forall₂_same.mpr (fun x _ _ => rfl)

/-- C7: after the collision sweep of `src/unnamed/part_000` on any candidate
list (in particular the one the code builds, sorted by ascending mapped x),
every adjacent pair of the output satisfies
`next.coords.x ≥ prev.coords.x + prev.coords.w + 10` unless `next` has a
resolved override; every item moves — if at all — only rightwards by a single
amount added to both `coords.x` and `transform.offsetX`, all other fields
untouched; and the shift is by the exact deficit: every unlocked item at
position i+1 ends at `max` of its mapped x and the (final) previous item's
right edge plus the padding — it is moved exactly to `prev.x + prev.w + 10`
when it was closer than that, and not moved at all otherwise. -/
theorem claim_C7_collision_sweep :
    ∀ (feedback : Option FeedbackStrategy) (strategy : Option LayoutStrategy)
      (ls : List TLayer),
      List.Chain'
        (fun a b => (getOverride b.id feedback strategy).isSome = false →
          b.coords.x ≥ a.coords.x + a.coords.w + 10)
        (RemapperInstanceRow.collisionSweep feedback strategy ls)
      ∧ List.Forall₂ (fun a b => ∃ d : ℚ, 0 ≤ d ∧ b = RemapperInstanceRow.shiftX d a)
        ls (RemapperInstanceRow.collisionSweep feedback strategy ls)
      ∧ ∀ (i : ℕ) (a b b' : TLayer),
          ls[i + 1]? = some a →
          (RemapperInstanceRow.collisionSweep feedback strategy ls)[i + 1]? = some b' →
          (RemapperInstanceRow.collisionSweep feedback strategy ls)[i]? = some b →
          (getOverride a.id feedback strategy).isSome = false →
          b'.coords.x = max a.coords.x (b.coords.x + b.coords.w + 10) := by
  intro feedback strategy ls
  cases ls with
  | nil =>
    refine ⟨?_, ?_, ?_⟩
    · simp [RemapperInstanceRow.collisionSweep]
    · simp [RemapperInstanceRow.collisionSweep]
    · intro i a b b' ha
      simp at ha
  | cons first rest =>
    refine ⟨sweepAux_chain feedback strategy rest first,
      List.Forall₂.cons ⟨0, le_refl 0, (shiftX_zero first).symm⟩
        (sweepAux_forall₂ feedback strategy rest first), ?_⟩
    intro i a b b' ha hb' hb hna
    simp only [List.getElem?_cons_succ] at ha
    simp only [RemapperInstanceRow.collisionSweep, List.getElem?_cons_succ] at hb'
    simp only [RemapperInstanceRow.collisionSweep] at hb
    exact sweepAux_exact feedback strategy rest first i a b b' ha hb' hb hna

/-- C6 (amended): under `DISTRIBUTE_HORIZONTAL` or `GRID` with at least one
flow candidate, the i-th candidate (0-based, encounter order) comes out with
horizontal center `targetBounds.x + margin + step·i + step/2` — the claim's
formula is off by the target origin `targetBounds.x` — where
`margin = 0.05·W` and `step = (W − 2·margin)/n`; its vertical position, size,
transform, id and type are unchanged from the mapper's output. -/
theorem claim_C6_amended (tb : Rect) (s : LayoutStrategy) (ov : List LayerOverride)
    (ls : List TLayer)
    (hmode : s.layoutMode = some "DISTRIBUTE_HORIZONTAL" ∨ s.layoutMode = some "GRID")
    (i : ℕ) (hi : i < (ls.filter (RemapperInstance.isGridCandidate ov)).length) :
    ∃ a b : TLayer,
      (ls.filter (RemapperInstance.isGridCandidate ov))[i]? = some a
      ∧ ((RemapperInstance.physicsPass tb s ov ls).filter
          (RemapperInstance.isGridCandidate ov))[i]? = some b
      ∧ b.coords.x + b.coords.w / 2
          = tb.x + tb.w * (5 / 100)
            + ((tb.w - tb.w * (5 / 100) * 2)
                / ((ls.filter (RemapperInstance.isGridCandidate ov)).length : ℚ)) * (i : ℚ)
            + ((tb.w - tb.w * (5 / 100) * 2)
                / ((ls.filter (RemapperInstance.isGridCandidate ov)).length : ℚ)) / 2
      ∧ b.coords.y = a.coords.y ∧ b.coords.w = a.coords.w ∧ b.coords.h = a.coords.h
      ∧ b.transform = a.transform ∧ b.id = a.id ∧ b.type = a.type := by
  have hlen0 : 0 < (ls.filter (RemapperInstance.isGridCandidate ov)).length :=
    Nat.lt_of_le_of_lt (Nat.zero_le i) hi
  have hmcond : (s.layoutMode == some "DISTRIBUTE_HORIZONTAL"
      || s.layoutMode == some "GRID") = true := by
    rcases hmode with h | h <;> simp [h]
  have hfilter : ((RemapperInstance.physicsPass tb s ov ls).filter
      (RemapperInstance.isGridCandidate ov))[i]?
      = some (RemapperInstance.gridAssignX tb
          (ls.filter (RemapperInstance.isGridCandidate ov)).length i
          ((ls.filter (RemapperInstance.isGridCandidate ov))[i])) := by
    simp only [RemapperInstance.physicsPass]
    rw [if_pos hlen0, if_pos hmcond, gridMapX_filter, gridSlotsX_getElem,
      List.getElem?_eq_getElem hi]
    simp
  refine ⟨(ls.filter (RemapperInstance.isGridCandidate ov))[i],
    RemapperInstance.gridAssignX tb (ls.filter (RemapperInstance.isGridCandidate ov)).length i
      ((ls.filter (RemapperInstance.isGridCandidate ov))[i]),
    List.getElem?_eq_getElem hi, hfilter, ?_,
    withX_coords_y _ _, withX_coords_w _ _, withX_coords_h _ _,
    withX_transform _ _, withX_id _ _, withX_type _ _⟩
  simp only [RemapperInstance.gridAssignX, withX_coords_x, withX_coords_w]
  ring

def stC6 : LayoutStrategy :=
  ⟨"GEOMETRIC", none, some "DISTRIBUTE_HORIZONTAL", none, none, none, none, none, none,
    none, none⟩

def tlC6 : TLayer := .mk "c" "text" ⟨0, 0, 40, 20⟩ ⟨1, 1, 0, 0, 0⟩ none none none none []

/-- C6 (counterexample): one flow candidate, target 400 wide at x = 10 — the
solver places its horizontal center at 210 (= 10 + margin + step/2), while the
claim's formula `margin + step·i + step/2` gives 200: the target origin is
missing from the claimed center. -/
theorem claim_C6_counterexample :
    (RemapperInstance.physicsPass ⟨10, 0, 400, 100⟩ stC6 [] [tlC6]).map
        (fun l => l.coords.x + l.coords.w / 2) = [210]
      ∧ (210 : ℚ)
        ≠ 400 * (5 / 100) + ((400 - 2 * (400 * (5 / 100))) / 1) * 0
          + ((400 - 2 * (400 * (5 / 100))) / 1) / 2 := by
  constructor
  · norm_num [RemapperInstance.physicsPass, RemapperInstance.gridMapX,
      RemapperInstance.gridAssignX, RemapperInstance.isGridCandidate,
      RemapperInstance.getOverride, RemapperInstance.TLayer.withX, stC6, tlC6,
      TLayer.id, TLayer.layoutRole, TLayer.coords, List.find?, List.filter]
  · norm_num

/-- C6 witness: the amended theorem applied to a single-candidate list in a
400-wide target at x = 0. -/
theorem claim_C6_witness :
    (stC6.layoutMode = some "DISTRIBUTE_HORIZONTAL" ∨ stC6.layoutMode = some "GRID")
      ∧ 0 < ([tlC6].filter (RemapperInstance.isGridCandidate [])).length
      ∧ ∃ a b : TLayer,
        ([tlC6].filter (RemapperInstance.isGridCandidate []))[0]? = some a
        ∧ ((RemapperInstance.physicsPass ⟨0, 0, 400, 100⟩ stC6 [] [tlC6]).filter
            (RemapperInstance.isGridCandidate []))[0]? = some b
        ∧ b.coords.x + b.coords.w / 2
            = (Rect.mk 0 0 400 100).x + (Rect.mk 0 0 400 100).w * (5 / 100)
              + (((Rect.mk 0 0 400 100).w - (Rect.mk 0 0 400 100).w * (5 / 100) * 2)
                  / (([tlC6].filter (RemapperInstance.isGridCandidate [])).length : ℚ))
                * ((0 : ℕ) : ℚ)
              + (((Rect.mk 0 0 400 100).w - (Rect.mk 0 0 400 100).w * (5 / 100) * 2)
                  / (([tlC6].filter (RemapperInstance.isGridCandidate [])).length : ℚ)) / 2
        ∧ b.coords.y = a.coords.y ∧ b.coords.w = a.coords.w ∧ b.coords.h = a.coords.h
        ∧ b.transform = a.transform ∧ b.id = a.id ∧ b.type = a.type :=
  ⟨Or.inl rfl, by decide,
    claim_C6_amended ⟨0, 0, 400, 100⟩ stC6 [] [tlC6] (Or.inl rfl) 0 (by decide)⟩

end PSD
